import Mathlib

/-!
Shallow embedding of the Veenoe viva-orchestration backend
(`app/services/orchestrator.py`, `app/services/sarvam_asr_service.py`,
`app/services/sarvam_tts_service.py`, `app/services/gemini_llm_service.py`,
`app/main.py`, `app/db/models.py`).

External collaborators (MongoDB, the Sarvam ASR/TTS websockets, the Gemini
LLM) are modelled as oracles passed in as arguments: a `Bool` for an awaited
call that either succeeds or raises, an `Except Err LLMEvaluation` for an LLM
call, and a list of `Except Err TTSMsg` for the messages the TTS websocket
delivers (an `Except.error` entry marks the point at which iterating the
websocket raises).  Python exceptions are modelled with `Except`; a
`try/except` in the source becomes an explicit `match` on the fallible call.
Each orchestrator method additionally returns the list of observable events
it performs, in order, so that ordering claims can be stated on the trace.
Opaque byte payloads (audio frames) are modelled as `List Nat`; the base64
round-trip performed between the orchestrator and the Sarvam SDK is
abstracted away (frames are carried already decoded), since no claim
inspects the encoding.  Message creation timestamps (`Message.timestamp`)
are omitted: no claim mentions them.
-/

/-- Raw audio frame payload (opaque bytes). -/
abbrev AudioChunk := List Nat

/-- Python exceptions relevant to the embedded code paths. -/
inductive Err where
  /-- `save_message_to_db` raises "Database not initialized". -/
  | dbNotInitialized
  /-- The awaited MongoDB `update_one` push raised. -/
  | dbWriteFailed
  /-- The LLM call (`get_ai_first_question` / `get_ai_evaluation`) raised. -/
  | llmFailed
  /-- `ws.transcribe` on the ASR websocket raised. -/
  | asrSendFailed
  /-- Iterating the TTS websocket raised. -/
  | ttsFailed
deriving Repr, DecidableEq

/-- Structured LLM response (`app/db/models.py`, class `LLMEvaluation`). -/
structure LLMEvaluation where
  evaluation : String
  new_question : String
deriving Repr, DecidableEq

/-- A transcript message (`app/db/models.py`, class `Message`).
The creation timestamp is omitted (no claim mentions it). -/
structure Message where
  speaker : String
  text : String
  ai_evaluation : Option LLMEvaluation
deriving Repr, DecidableEq

/-- The session document model (`app/db/models.py`, class `VivaSession`);
the store-assigned `_id` is omitted (the embedding fixes one session). -/
structure VivaSession where
  student_name : String
  topic : String
  class_level : String
  status : String
  transcript : List Message
deriving Repr, DecidableEq

/-- The MongoDB document for this orchestrator's `session_id`
(`viva_sessions` collection).  `found` says whether `find_one` returns a
document at all. -/
structure Store where
  found : Bool
  student_name : String
  topic : String
  class_level : String
  status : String
  transcript : List Message
deriving Repr, DecidableEq

/-- `find_one` + `VivaSession.model_validate` on the store document. -/
def Store.loadSession (s : Store) : Option VivaSession :=
  if s.found then
    some { student_name := s.student_name, topic := s.topic,
           class_level := s.class_level, status := s.status,
           transcript := s.transcript }
  else none

/-- State of the `SarvamASRService` instance
(`app/services/sarvam_asr_service.py`).  `sent` records the frames actually
transmitted to the recognizer, in order. -/
structure SarvamASRService where
  is_connected : Bool
  ws : Bool
  listener_running : Bool
  sent : List AudioChunk
deriving Repr, DecidableEq

/-- Observable events performed by the orchestrator, in order. -/
inductive Event where
  /-- `self.is_processing_llm = True` at the top of the viva loop. -/
  | lockSet
  /-- `self.is_processing_llm = False` in the `finally` block. -/
  | lockCleared
  /-- `self.viva_session.transcript.append(message)` (in-memory append). -/
  | memAppended (speaker text : String)
  /-- the MongoDB `$push` of the message onto the persisted transcript. -/
  | dbAppended (speaker text : String)
  /-- `get_ai_evaluation(...)` invoked with this history and student answer. -/
  | invokedGenerator (history : List Message) (student_answer : String)
  /-- `get_ai_first_question(...)` invoked. -/
  | invokedFirstQuestion (topic class_level : String)
  /-- `client_ws.send_bytes(audio_chunk)`. -/
  | sentAudio (chunk : AudioChunk)
  /-- `client_ws.send_json({"type": "speech_end"})`. -/
  | sentSpeechEnd
  /-- `ws.transcribe(...)` succeeded: the frame reached the recognizer. -/
  | forwardedToASR (chunk : AudioChunk)
deriving Repr, DecidableEq

/-- State of one `VivaOrchestrator` instance together with the store
document its `session_id` denotes (`app/services/orchestrator.py`).
`session_collection` records whether `self.session_collection` has been set
(it is `None` until `initialize` runs). -/
structure VivaOrchestrator where
  is_processing_llm : Bool
  viva_session : Option VivaSession
  session_collection : Bool
  asr_service : SarvamASRService
  store : Store
deriving Repr, DecidableEq

/-- `VivaOrchestrator.__init__`: the lock starts `False`, no session loaded,
no database handle, the ASR service constructed but not connected. -/
def VivaOrchestrator.construct (store : Store) : VivaOrchestrator :=
  { is_processing_llm := false
    viva_session := none
    session_collection := false
    asr_service := { is_connected := false, ws := false,
                     listener_running := false, sent := [] }
    store := store }

/-- `VivaOrchestrator.initialize` (orchestrator.py lines 34-61): obtains the
database handle, loads the session document, validates it, connects the ASR
service (which on success starts the listener task).  `dbOk` models whether
`get_db`/`find_one` succeed at all; `asrOk` models whether the ASR websocket
connect succeeds.  Returns the Python method's `True`/`False` result. -/
def VivaOrchestrator.init_and_load (st : VivaOrchestrator) (dbOk asrOk : Bool) :
    Bool × VivaOrchestrator :=
  if dbOk = false then (false, st)
  else
    let st1 := { st with session_collection := true }
    match st1.store.loadSession with
    | none => (false, st1)
    | some s =>
      let st2 := { st1 with viva_session := some s }
      if asrOk then
        (true, { st2 with asr_service :=
          { st2.asr_service with is_connected := true, ws := true,
                                 listener_running := true } })
      else
        (false, { st2 with asr_service :=
          { st2.asr_service with is_connected := false } })

/-- The fixed placeholder evaluation text for the very first turn
(`gemini_llm_service.py` line 103). -/
def openingPlaceholder : String := "Let's begin."

/-- `get_ai_first_question` (gemini_llm_service.py lines 83-115): invokes the
LLM chain (the `raw` oracle) and unconditionally overwrites the `evaluation`
field with the fixed placeholder before returning. -/
def get_ai_first_question (raw : Except Err LLMEvaluation) :
    Except Err LLMEvaluation :=
  match raw with
  | .error e => .error e
  | .ok r => .ok { r with evaluation := openingPlaceholder }

/-- A message delivered by the TTS websocket
(`sarvam_tts_service.py` lines 43-52). -/
inductive TTSMsg where
  /-- an `AudioOutput` message carrying one (decoded) audio chunk. -/
  | audio (chunk : AudioChunk)
  /-- the `final` completion event. -/
  | finalEvent
  /-- any other message (ignored by the loop). -/
  | other
deriving Repr, DecidableEq

/-- `text_to_audio_stream` (sarvam_tts_service.py lines 10-61): iterates the
TTS websocket, yielding each audio chunk as it arrives and stopping at the
`final` event.  The whole body is wrapped in `try/except Exception`, so if
iterating the websocket raises (an `Except.error` entry in `msgs`, which in
the source also covers a failure in `configure`/`convert`/`flush` before any
message arrives) the generator simply ends: the exception never escapes to
the caller.  Returns the list of yielded chunks, in order. -/
def text_to_audio_stream (text : String) : List (Except Err TTSMsg) → List AudioChunk
  | [] => []
  | .error _ :: _ => []
  | .ok (TTSMsg.audio c) :: rest => c :: text_to_audio_stream text rest
  | .ok TTSMsg.finalEvent :: _ => []
  | .ok TTSMsg.other :: rest => text_to_audio_stream text rest

/-- `VivaOrchestrator.stream_ai_audio_to_client` (orchestrator.py lines
144-160): drains the TTS stream, sending each chunk to the client websocket
as it arrives, then sends the single `speech_end` marker.  Transport sends
are modelled as succeeding (a `send_bytes` failure is the `TransportError`
path, outside every claim about this method).  Orchestrator state is
unchanged. -/
def VivaOrchestrator.stream_ai_audio_to_client (st : VivaOrchestrator)
    (ai_message : Message) (tts : List (Except Err TTSMsg)) :
    VivaOrchestrator × List Event :=
  (st, (text_to_audio_stream ai_message.text tts).map Event.sentAudio
        ++ [Event.sentSpeechEnd])

/-- `VivaOrchestrator.save_message_to_db` (orchestrator.py lines 162-190):
raises if the database handle or session is missing; otherwise constructs
the `Message`, appends it to the in-memory transcript FIRST, then awaits the
MongoDB `$push` (`dbOk` models whether that await succeeds).  Note that when
the push raises, the in-memory append has already happened and is not rolled
back. -/
def VivaOrchestrator.save_message_to_db (st : VivaOrchestrator)
    (speaker text : String) (evaluation : Option LLMEvaluation) (dbOk : Bool) :
    VivaOrchestrator × Except Err Message × List Event :=
  match st.viva_session with
  | none => (st, .error .dbNotInitialized, [])
  | some vs =>
    if st.session_collection = false then (st, .error .dbNotInitialized, [])
    else
      let msg : Message := { speaker := speaker, text := text,
                             ai_evaluation := evaluation }
      let vs1 : VivaSession := { vs with transcript := vs.transcript ++ [msg] }
      let st1 := { st with viva_session := some vs1 }
      if dbOk then
        ({ st1 with store :=
            { st1.store with transcript := st1.store.transcript ++ [msg] } },
         .ok msg,
         [Event.memAppended speaker text, Event.dbAppended speaker text])
      else
        (st1, .error .dbWriteFailed, [Event.memAppended speaker text])

/-- The `try` body of `VivaOrchestrator.on_transcript_received`
(orchestrator.py lines 115-135), entered with the lock already set: persist
the student's message, invoke `get_ai_evaluation` with the in-memory
transcript as history (which at that point already contains the student's
message), persist the examiner's message (text is evaluation and question
joined by a space), stream its audio.  The `Except Err Unit` result records
whether the body raised (to be caught by the `except` clause). -/
def VivaOrchestrator.turnBody (st : VivaOrchestrator) (transcript : String)
    (userDbOk : Bool) (llm : Except Err LLMEvaluation) (aiDbOk : Bool)
    (tts : List (Except Err TTSMsg)) :
    VivaOrchestrator × Except Err Unit × List Event :=
  match st.save_message_to_db "user" transcript none userDbOk with
  | (st1, .error e, ev1) => (st1, .error e, ev1)
  | (st1, .ok _, ev1) =>
    match st1.viva_session with
    | none => (st1, .error .dbNotInitialized, ev1)
    | some vs1 =>
      match llm with
      | .error e =>
        (st1, .error e, ev1 ++ [Event.invokedGenerator vs1.transcript transcript])
      | .ok resp =>
        match st1.save_message_to_db "ai"
            (resp.evaluation ++ " " ++ resp.new_question) (some resp) aiDbOk with
        | (st2, .error e, ev2) =>
          (st2, .error e,
           ev1 ++ Event.invokedGenerator vs1.transcript transcript :: ev2)
        | (st2, .ok aiMsg, ev2) =>
          match st2.stream_ai_audio_to_client aiMsg tts with
          | (st3, ev3) =>
            (st3, .ok (),
             ev1 ++ Event.invokedGenerator vs1.transcript transcript :: (ev2 ++ ev3))

/-- `VivaOrchestrator.on_transcript_received` (orchestrator.py lines
102-142): the ASR callback.  No-op when no session is loaded; otherwise sets
the lock, runs the turn body inside `try/except Exception` (the error is
only logged), and clears the lock in the `finally` block regardless of
success or failure. -/
def VivaOrchestrator.on_transcript_received (st : VivaOrchestrator)
    (transcript : String) (userDbOk : Bool) (llm : Except Err LLMEvaluation)
    (aiDbOk : Bool) (tts : List (Except Err TTSMsg)) :
    VivaOrchestrator × List Event :=
  match st.viva_session with
  | none => (st, [])
  | some _ =>
    match VivaOrchestrator.turnBody ({ st with is_processing_llm := true })
        transcript userDbOk llm aiDbOk tts with
    | (stEnd, _, body) =>
      ({ stEnd with is_processing_llm := false },
       Event.lockSet :: body ++ [Event.lockCleared])

/-- `VivaOrchestrator.start_viva` (orchestrator.py lines 63-92): no-op when
no session is loaded; returns immediately when the loaded transcript is
non-empty (resumed session); otherwise gets the first question from the LLM,
persists it as an examiner message (with the LLM response attached as its
evaluation), then streams its audio.  This method has no `try/except`: a
raise propagates to the websocket endpoint. -/
def VivaOrchestrator.start_viva (st : VivaOrchestrator)
    (rawFirst : Except Err LLMEvaluation) (dbOk : Bool)
    (tts : List (Except Err TTSMsg)) :
    VivaOrchestrator × Except Err Unit × List Event :=
  match st.viva_session with
  | none => (st, .ok (), [])
  | some vs =>
    if 0 < vs.transcript.length then (st, .ok (), [])
    else
      match get_ai_first_question rawFirst with
      | .error e =>
        (st, .error e, [Event.invokedFirstQuestion vs.topic vs.class_level])
      | .ok resp =>
        match st.save_message_to_db "ai" resp.new_question (some resp) dbOk with
        | (st1, .error e, ev1) =>
          (st1, .error e, Event.invokedFirstQuestion vs.topic vs.class_level :: ev1)
        | (st1, .ok aiMsg, ev1) =>
          match st1.stream_ai_audio_to_client aiMsg tts with
          | (st2, ev2) =>
            (st2, .ok (),
             Event.invokedFirstQuestion vs.topic vs.class_level :: (ev1 ++ ev2))

/-- `ws.transcribe(...)` on the ASR websocket
(sarvam_asr_service.py lines 92-96): the genuinely fallible SDK send.
`ok` models whether the awaited send succeeds; on success the frame reaches
the recognizer. -/
def SarvamASRService.transcribe (asr : SarvamASRService) (chunk : AudioChunk)
    (ok : Bool) : Except Err SarvamASRService :=
  if ok then .ok { asr with sent := asr.sent ++ [chunk] }
  else .error .asrSendFailed

/-- `SarvamASRService.send_audio_chunk` (sarvam_asr_service.py lines 77-98):
silently returns when not connected or the websocket is gone; otherwise
calls `transcribe` inside `try/except Exception`, so a send failure is
logged and swallowed.  The `Except` result type reflects that in Python an
uncaught exception here would propagate to the caller. -/
def SarvamASRService.send_audio_chunk (asr : SarvamASRService)
    (chunk : AudioChunk) (transcribeOk : Bool) :
    Except Err (SarvamASRService × List Event) :=
  if asr.is_connected = false ∨ asr.ws = false then .ok (asr, [])
  else
    match asr.transcribe chunk transcribeOk with
    | .ok asr1 => .ok (asr1, [Event.forwardedToASR chunk])
    | .error _ => .ok (asr, [])

/-- `SarvamASRService.close` (sarvam_asr_service.py lines 100-118): cancels
the listener task, exits the websocket context manager, clears `ws` and the
connected flag. -/
def SarvamASRService.close (asr : SarvamASRService) : SarvamASRService :=
  { asr with listener_running := false, ws := false, is_connected := false }

/-- `VivaOrchestrator.handle_audio_chunk` (orchestrator.py lines 94-100):
forwards the frame to the ASR service only when the lock is clear
(`self.asr_service` itself is always set by the constructor); a frame
arriving while the lock is held is dropped without any state change.
An exception from `send_audio_chunk` would propagate (there is no
`try/except` here). -/
def VivaOrchestrator.handle_audio_chunk (st : VivaOrchestrator)
    (chunk : AudioChunk) (transcribeOk : Bool) :
    Except Err (VivaOrchestrator × List Event) :=
  if st.is_processing_llm then .ok (st, [])
  else
    match st.asr_service.send_audio_chunk chunk transcribeOk with
    | .ok (asr1, evs) => .ok ({ st with asr_service := asr1 }, evs)
    | .error e => .error e

/-- `VivaOrchestrator.disconnect` (orchestrator.py lines 192-206): closes the
ASR service, then (the database handle being set) marks the session
`completed` in the store.  The awaited teardown calls themselves (the ASR
websocket exit, the status update) are modelled as succeeding. -/
def VivaOrchestrator.disconnect (st : VivaOrchestrator) : VivaOrchestrator :=
  let st1 := { st with asr_service := st.asr_service.close }
  if st1.session_collection then
    { st1 with store := { st1.store with status := "completed" } }
  else st1

/-- One inbound item handled while the connection is live: an audio frame or
a text control message received by the endpoint's `receive` loop
(main.py lines 130-140), or a final-transcript callback delivered by the ASR
listener task (which, per the concurrency model, runs a whole turn between
two receives: the in-flight cycle is never forcibly cancelled). -/
inductive Inbound where
  | audioBytes (chunk : AudioChunk) (transcribeOk : Bool)
  | textMessage (s : String)
  | finalTranscript (t : String) (userDbOk : Bool)
      (llm : Except Err LLMEvaluation) (aiDbOk : Bool)
      (tts : List (Except Err TTSMsg))

/-- The endpoint's main loop (main.py lines 130-140) interleaved with ASR
callbacks: processes inbound items until the connection ends (the list is
exhausted: `WebSocketDisconnect` or any transport error) or an exception
escapes `handle_audio_chunk`. -/
def run_loop : VivaOrchestrator → List Inbound → VivaOrchestrator
  | st, [] => st
  | st, Inbound.audioBytes c ok :: rest =>
    match st.handle_audio_chunk c ok with
    | .ok (st1, _) => run_loop st1 rest
    | .error _ => st
  | st, Inbound.textMessage _ :: rest => run_loop st rest
  | st, Inbound.finalTranscript t u l a tts :: rest =>
    run_loop (st.on_transcript_received t u l a tts).1 rest

/-- `websocket_viva_endpoint` (main.py lines 103-151): accept, construct the
orchestrator, initialize (on failure: policy-violation close and return —
the `try/finally` is never entered, so no teardown); on success run
`start_viva` (a raise there falls to the `except` clause) then the receive
loop, and in the `finally` block ALWAYS run `orchestrator.disconnect()`,
whether the loop ended by client disconnect or by any other exception.
Returns the final orchestrator/store state. -/
def websocket_viva_endpoint (store0 : Store) (dbOk asrOk : Bool)
    (rawFirst : Except Err LLMEvaluation) (firstDbOk : Bool)
    (firstTts : List (Except Err TTSMsg)) (inbounds : List Inbound) :
    VivaOrchestrator :=
  let st0 := VivaOrchestrator.construct store0
  match VivaOrchestrator.init_and_load st0 dbOk asrOk with
  | (false, st1) => st1
  | (true, st1) =>
    match st1.start_viva rawFirst firstDbOk firstTts with
    | (st2, .error _, _) => st2.disconnect
    | (st2, .ok _, _) => (run_loop st2 inbounds).disconnect

/-- Is this event a turn-lock transition? -/
def isLockEvent : Event → Bool
  | Event.lockSet => true
  | Event.lockCleared => true
  | _ => false

/-- Trace scanner: every event satisfying `isTarget` is preceded (strictly
earlier in the list) by some event satisfying `isMark`; `seen` says whether
a mark has already occurred. -/
def precededBy (isMark isTarget : Event → Bool) : Bool → List Event → Bool
  | _, [] => true
  | seen, e :: rest =>
    (!isTarget e || seen) && precededBy isMark isTarget (seen || isMark e) rest

/-- Does this event record the durable (store-side) append of a message by
the given speaker? -/
def isDbAppendBy (speaker : String) : Event → Bool
  | Event.dbAppended s _ => s = speaker
  | _ => false

/-- Is this event an invocation of the dialogue generator? -/
def isGenInvocation : Event → Bool
  | Event.invokedGenerator _ _ => true
  | _ => false

/-- Is this event an audio-out event (a frame or the end-of-speech marker)
sent to the client transport? -/
def isAudioOut : Event → Bool
  | Event.sentAudio _ => true
  | Event.sentSpeechEnd => true
  | _ => false

/-- Evaluation-field discipline of a persisted message: student messages
carry no structured evaluation, examiner messages carry one. -/
def evalFieldOk (m : Message) : Bool :=
  if m.speaker = "user" then m.ai_evaluation.isNone
  else if m.speaker = "ai" then m.ai_evaluation.isSome
  else true

/-- Number of `speech_end` markers in a trace. -/
def countSpeechEnd : List Event → Nat
  | [] => 0
  | Event.sentSpeechEnd :: rest => countSpeechEnd rest + 1
  | _ :: rest => countSpeechEnd rest

/-- The student message constructed by the viva loop for a final
transcript `t` (no structured evaluation). -/
def userMessage (t : String) : Message :=
  { speaker := "user", text := t, ai_evaluation := none }

/-- A concrete store document holding a fresh (empty-transcript) session,
used to instantiate the theorems below on closed inputs. -/
def sampleStore : Store :=
  { found := true, student_name := "s", topic := "Photosynthesis",
    class_level := "10th Grade", status := "active", transcript := [] }

/-- The session `sampleStore.loadSession` yields. -/
def sampleSession : VivaSession :=
  { student_name := "s", topic := "Photosynthesis",
    class_level := "10th Grade", status := "active", transcript := [] }

/-- The sample orchestrator after a successful `initialize` on
`sampleStore`. -/
def sampleOrch : VivaOrchestrator :=
  (VivaOrchestrator.init_and_load (VivaOrchestrator.construct sampleStore)
    true true).2

/-- The sample orchestrator after one turn in which the store write for the
student's message failed (the MongoDB push raised): the message "a1" is now
in the in-memory transcript but not in the store. -/
def afterFailedPush : VivaOrchestrator :=
  (sampleOrch.on_transcript_received "a1" false
    (Except.ok { evaluation := "e1", new_question := "q1" }) true []).1

/-- A subsequent fully successful turn run from `afterFailedPush`. -/
def secondTurn : VivaOrchestrator × List Event :=
  afterFailedPush.on_transcript_received "a2" true
    (Except.ok { evaluation := "e2", new_question := "q2" }) true []

/-! ## Helper lemmas -/

/-- Once a mark has been seen, the scanner accepts any remainder. -/
theorem precededBy_of_seen (m t : Event → Bool) (l : List Event) :
    precededBy m t true l = true := by
  induction l with
  | nil => rfl
  | cons e rest ih => simp [precededBy, ih]

/-- A pure audio-frame segment contains no `speech_end` marker. -/
theorem countSpeechEnd_stream (frames : List AudioChunk) :
    countSpeechEnd (frames.map Event.sentAudio ++ [Event.sentSpeechEnd]) = 1 := by
  induction frames with
  | nil => rfl
  | cons c rest ih => simpa [countSpeechEnd] using ih

/-- Frames yielded by the TTS generator are unaffected by anything that
would have followed the point at which iterating the websocket raises. -/
theorem text_to_audio_stream_error_stops (text : String) (pre : List (Except Err TTSMsg))
    (e : Err) (suf suf' : List (Except Err TTSMsg)) :
    text_to_audio_stream text (pre ++ Except.error e :: suf)
      = text_to_audio_stream text (pre ++ Except.error e :: suf') := by
  induction pre with
  | nil => rfl
  | cons m rest ih =>
    cases m with
    | error e2 => rfl
    | ok tm => cases tm <;> simp [text_to_audio_stream, ih]

/-- Full characterization of `handle_audio_chunk`: it always returns
normally, and either leaves the state untouched (frame dropped) or, only
when the lock is clear, appends the frame to the recognizer's input. -/
theorem handle_audio_chunk_spec (st : VivaOrchestrator) (c : AudioChunk) (ok : Bool) :
    st.handle_audio_chunk c ok = .ok (st, [])
    ∨ (st.is_processing_llm = false
       ∧ st.handle_audio_chunk c ok
         = .ok ({ st with asr_service :=
             { st.asr_service with sent := st.asr_service.sent ++ [c] } },
           [Event.forwardedToASR c])) := by
  obtain ⟨lock, vs, sc, asr, store⟩ := st
  obtain ⟨conn, ws, lr, sent⟩ := asr
  cases lock <;> cases conn <;> cases ws <;> cases ok <;>
    simp [VivaOrchestrator.handle_audio_chunk, SarvamASRService.send_audio_chunk,
          SarvamASRService.transcribe]

/-- A frame arriving while the lock is held is dropped with no state
change whatsoever. -/
theorem handle_audio_chunk_locked (st : VivaOrchestrator) (c : AudioChunk) (ok : Bool)
    (h : st.is_processing_llm = true) :
    st.handle_audio_chunk c ok = .ok (st, []) := by
  simp [VivaOrchestrator.handle_audio_chunk, h]

/-- Characterization of a `save_message_to_db` call whose store write
succeeds: the same message is appended at the tail of the in-memory
transcript and of the persisted transcript. -/
theorem save_ok_spec (st : VivaOrchestrator) (vs : VivaSession) (sp tx : String)
    (ev : Option LLMEvaluation) (hvs : st.viva_session = some vs)
    (hc : st.session_collection = true) :
    st.save_message_to_db sp tx ev true
      = ({ st with
            viva_session := some ({ vs with transcript := vs.transcript ++ [(⟨sp, tx, ev⟩ : Message)] }),
            store := { st.store with transcript := st.store.transcript ++ [(⟨sp, tx, ev⟩ : Message)] } },
         .ok (⟨sp, tx, ev⟩ : Message),
         [Event.memAppended sp tx, Event.dbAppended sp tx]) := by
  simp [VivaOrchestrator.save_message_to_db, hvs, hc]

/-- Characterization of a `save_message_to_db` call whose store write
raises: the in-memory transcript has already been extended, the store is
untouched, and the exception propagates. -/
theorem save_fail_spec (st : VivaOrchestrator) (vs : VivaSession) (sp tx : String)
    (ev : Option LLMEvaluation) (hvs : st.viva_session = some vs)
    (hc : st.session_collection = true) :
    st.save_message_to_db sp tx ev false
      = ({ st with
            viva_session := some ({ vs with transcript := vs.transcript ++ [(⟨sp, tx, ev⟩ : Message)] }) },
         .error .dbWriteFailed,
         [Event.memAppended sp tx]) := by
  simp [VivaOrchestrator.save_message_to_db, hvs, hc]

/-- `on_transcript_received` is a no-op when no session is loaded. -/
theorem otr_none (st : VivaOrchestrator) (t : String) (u : Bool)
    (l : Except Err LLMEvaluation) (a : Bool) (tts : List (Except Err TTSMsg))
    (hvs : st.viva_session = none) :
    st.on_transcript_received t u l a tts = (st, []) := by
  simp [VivaOrchestrator.on_transcript_received, hvs]

/-- Path: the database handle was never set.  `save_message_to_db` raises at
its guard, the error is caught, the lock is set and then cleared. -/
theorem otr_noDb (st : VivaOrchestrator) (vs : VivaSession) (t : String) (u : Bool)
    (l : Except Err LLMEvaluation) (a : Bool) (tts : List (Except Err TTSMsg))
    (hvs : st.viva_session = some vs) (hc : st.session_collection = false) :
    st.on_transcript_received t u l a tts
      = ({ st with is_processing_llm := false },
         [Event.lockSet, Event.lockCleared]) := by
  simp [VivaOrchestrator.on_transcript_received, VivaOrchestrator.turnBody,
        VivaOrchestrator.save_message_to_db, hvs, hc]

/-- Path: the store write for the student's message raises.  The student's
message is already in the in-memory transcript, nothing reached the store,
the generator is never invoked, the lock is cleared. -/
theorem otr_userFail (st : VivaOrchestrator) (vs : VivaSession) (t : String)
    (l : Except Err LLMEvaluation) (a : Bool) (tts : List (Except Err TTSMsg))
    (hvs : st.viva_session = some vs) (hc : st.session_collection = true) :
    st.on_transcript_received t false l a tts
      = ({ st with
            is_processing_llm := false,
            viva_session := some ({ vs with transcript := vs.transcript ++ [userMessage t] }) },
         [Event.lockSet, Event.memAppended "user" t, Event.lockCleared]) := by
  simp [VivaOrchestrator.on_transcript_received, VivaOrchestrator.turnBody,
        VivaOrchestrator.save_message_to_db, hvs, hc, userMessage]

/-- Path: the student's message is persisted, then the dialogue generator
raises.  The student's message sits exactly once in both transcripts, the
session and recognizer are untouched, the lock is cleared. -/
theorem otr_genFail (st : VivaOrchestrator) (vs : VivaSession) (t : String)
    (e : Err) (a : Bool) (tts : List (Except Err TTSMsg))
    (hvs : st.viva_session = some vs) (hc : st.session_collection = true) :
    st.on_transcript_received t true (.error e) a tts
      = ({ st with
            is_processing_llm := false,
            viva_session := some ({ vs with transcript := vs.transcript ++ [userMessage t] }),
            store := { st.store with transcript := st.store.transcript ++ [userMessage t] } },
         [Event.lockSet, Event.memAppended "user" t, Event.dbAppended "user" t,
          Event.invokedGenerator (vs.transcript ++ [userMessage t]) t,
          Event.lockCleared]) := by
  simp [VivaOrchestrator.on_transcript_received, VivaOrchestrator.turnBody,
        VivaOrchestrator.save_message_to_db, hvs, hc, userMessage]

/-- Path: generator succeeds but the store write for the examiner's message
raises.  Both messages are in memory, only the student's reached the store,
no audio is sent, the lock is cleared. -/
theorem otr_aiFail (st : VivaOrchestrator) (vs : VivaSession) (t : String)
    (resp : LLMEvaluation) (tts : List (Except Err TTSMsg))
    (hvs : st.viva_session = some vs) (hc : st.session_collection = true) :
    st.on_transcript_received t true (.ok resp) false tts
      = ({ st with
            is_processing_llm := false,
            viva_session := some ({ vs with transcript := vs.transcript ++ [userMessage t, ⟨"ai", resp.evaluation ++ " " ++ resp.new_question, some resp⟩] }),
            store := { st.store with transcript := st.store.transcript ++ [userMessage t] } },
         [Event.lockSet, Event.memAppended "user" t, Event.dbAppended "user" t,
          Event.invokedGenerator (vs.transcript ++ [userMessage t]) t,
          Event.memAppended "ai" (resp.evaluation ++ " " ++ resp.new_question),
          Event.lockCleared]) := by
  simp [VivaOrchestrator.on_transcript_received, VivaOrchestrator.turnBody,
        VivaOrchestrator.save_message_to_db, hvs, hc, userMessage]

/-- Path: the fully successful turn: student message persisted, generator
invoked with the history including it, examiner message persisted, audio
streamed, one end-of-speech marker, lock cleared. -/
theorem otr_success (st : VivaOrchestrator) (vs : VivaSession) (t : String)
    (resp : LLMEvaluation) (tts : List (Except Err TTSMsg))
    (hvs : st.viva_session = some vs) (hc : st.session_collection = true) :
    st.on_transcript_received t true (.ok resp) true tts
      = ({ st with
            is_processing_llm := false,
            viva_session := some ({ vs with transcript := vs.transcript ++ [userMessage t, ⟨"ai", resp.evaluation ++ " " ++ resp.new_question, some resp⟩] }),
            store := { st.store with transcript := st.store.transcript ++ [userMessage t, ⟨"ai", resp.evaluation ++ " " ++ resp.new_question, some resp⟩] } },
         Event.lockSet :: Event.memAppended "user" t :: Event.dbAppended "user" t ::
          Event.invokedGenerator (vs.transcript ++ [userMessage t]) t ::
          Event.memAppended "ai" (resp.evaluation ++ " " ++ resp.new_question) ::
          Event.dbAppended "ai" (resp.evaluation ++ " " ++ resp.new_question) ::
          ((text_to_audio_stream (resp.evaluation ++ " " ++ resp.new_question) tts).map Event.sentAudio
            ++ [Event.sentSpeechEnd, Event.lockCleared])) := by
  simp [VivaOrchestrator.on_transcript_received, VivaOrchestrator.turnBody,
        VivaOrchestrator.save_message_to_db,
        VivaOrchestrator.stream_ai_audio_to_client, hvs, hc, userMessage]

/-- `start_viva` is a no-op when no session is loaded. -/
theorem sv_none (st : VivaOrchestrator) (raw : Except Err LLMEvaluation)
    (dOk : Bool) (tts : List (Except Err TTSMsg))
    (hvs : st.viva_session = none) :
    st.start_viva raw dOk tts = (st, .ok (), []) := by
  simp [VivaOrchestrator.start_viva, hvs]

/-- `start_viva` on a resumed session (non-empty transcript) returns
immediately: no LLM call, no persistence, no audio. -/
theorem sv_resume (st : VivaOrchestrator) (vs : VivaSession)
    (raw : Except Err LLMEvaluation) (dOk : Bool) (tts : List (Except Err TTSMsg))
    (hvs : st.viva_session = some vs) (hne : vs.transcript ≠ []) :
    st.start_viva raw dOk tts = (st, .ok (), []) := by
  have hlen : 0 < vs.transcript.length := List.length_pos.mpr hne
  simp [VivaOrchestrator.start_viva, hvs, hlen]

/-- `start_viva` on a new session when the LLM call raises: the exception
propagates (no `try/except` in this method), nothing was persisted. -/
theorem sv_llmFail (st : VivaOrchestrator) (vs : VivaSession) (e : Err)
    (dOk : Bool) (tts : List (Except Err TTSMsg))
    (hvs : st.viva_session = some vs) (hemp : vs.transcript = []) :
    st.start_viva (.error e) dOk tts
      = (st, .error e, [Event.invokedFirstQuestion vs.topic vs.class_level]) := by
  simp [VivaOrchestrator.start_viva, get_ai_first_question, hvs, hemp]

/-- `start_viva` on a new session when the database handle is missing:
`save_message_to_db` raises at its guard and the exception propagates. -/
theorem sv_noDb (st : VivaOrchestrator) (vs : VivaSession) (r : LLMEvaluation)
    (dOk : Bool) (tts : List (Except Err TTSMsg))
    (hvs : st.viva_session = some vs) (hemp : vs.transcript = [])
    (hc : st.session_collection = false) :
    st.start_viva (.ok r) dOk tts
      = (st, .error .dbNotInitialized,
         [Event.invokedFirstQuestion vs.topic vs.class_level]) := by
  simp [VivaOrchestrator.start_viva, get_ai_first_question,
        VivaOrchestrator.save_message_to_db, hvs, hemp, hc]

/-- `start_viva` on a new session when the store write raises: the opening
message is in memory only and the exception propagates before any audio. -/
theorem sv_saveFail (st : VivaOrchestrator) (vs : VivaSession) (r : LLMEvaluation)
    (tts : List (Except Err TTSMsg))
    (hvs : st.viva_session = some vs) (hemp : vs.transcript = [])
    (hc : st.session_collection = true) :
    st.start_viva (.ok r) false tts
      = ({ st with viva_session := some ({ vs with transcript := [⟨"ai", r.new_question, some ⟨openingPlaceholder, r.new_question⟩⟩] }) },
         .error .dbWriteFailed,
         [Event.invokedFirstQuestion vs.topic vs.class_level,
          Event.memAppended "ai" r.new_question]) := by
  simp [VivaOrchestrator.start_viva, get_ai_first_question,
        VivaOrchestrator.save_message_to_db, hvs, hemp, hc, openingPlaceholder]

/-- `start_viva` on a new session, fully successful: exactly one examiner
message — carrying the fixed placeholder as its evaluation text — is
persisted, and only then is its audio streamed, ending with the single
end-of-speech marker. -/
theorem sv_success (st : VivaOrchestrator) (vs : VivaSession) (r : LLMEvaluation)
    (tts : List (Except Err TTSMsg))
    (hvs : st.viva_session = some vs) (hemp : vs.transcript = [])
    (hc : st.session_collection = true) :
    st.start_viva (.ok r) true tts
      = ({ st with
            viva_session := some ({ vs with transcript := [⟨"ai", r.new_question, some ⟨openingPlaceholder, r.new_question⟩⟩] }),
            store := { st.store with transcript := st.store.transcript ++ [⟨"ai", r.new_question, some ⟨openingPlaceholder, r.new_question⟩⟩] } },
         .ok (),
         Event.invokedFirstQuestion vs.topic vs.class_level ::
          Event.memAppended "ai" r.new_question ::
          Event.dbAppended "ai" r.new_question ::
          ((text_to_audio_stream r.new_question tts).map Event.sentAudio
            ++ [Event.sentSpeechEnd])) := by
  simp [VivaOrchestrator.start_viva, get_ai_first_question,
        VivaOrchestrator.save_message_to_db,
        VivaOrchestrator.stream_ai_audio_to_client, hvs, hemp, hc, openingPlaceholder]

/-- The turn body never touches the database handle, the recognizer
connection, the lock field, or the session status. -/
theorem turnBody_frame (st : VivaOrchestrator) (t : String) (u : Bool)
    (l : Except Err LLMEvaluation) (a : Bool) (tts : List (Except Err TTSMsg)) :
    (VivaOrchestrator.turnBody st t u l a tts).1.session_collection = st.session_collection
    ∧ (VivaOrchestrator.turnBody st t u l a tts).1.asr_service = st.asr_service
    ∧ (VivaOrchestrator.turnBody st t u l a tts).1.is_processing_llm = st.is_processing_llm
    ∧ (VivaOrchestrator.turnBody st t u l a tts).1.store.status = st.store.status := by
  rcases hv : st.viva_session with _ | vs
  · simp [VivaOrchestrator.turnBody, VivaOrchestrator.save_message_to_db, hv]
  · cases hc : st.session_collection <;> cases u <;> rcases l with e | resp <;> cases a <;>
      simp [VivaOrchestrator.turnBody, VivaOrchestrator.save_message_to_db,
            VivaOrchestrator.stream_ai_audio_to_client, hv, hc]

/-- The ASR callback never touches the database handle, the recognizer
connection, or the session status, and always leaves the lock cleared or the
state untouched (no loaded session). -/
theorem otr_frame (st : VivaOrchestrator) (t : String) (u : Bool)
    (l : Except Err LLMEvaluation) (a : Bool) (tts : List (Except Err TTSMsg)) :
    (st.on_transcript_received t u l a tts).1.session_collection = st.session_collection
    ∧ (st.on_transcript_received t u l a tts).1.asr_service = st.asr_service
    ∧ (st.on_transcript_received t u l a tts).1.store.status = st.store.status := by
  rcases hv : st.viva_session with _ | vs
  · simp [otr_none st t u l a tts hv]
  · cases hc : st.session_collection <;> cases u <;> rcases l with e | resp <;> cases a <;>
      simp [VivaOrchestrator.on_transcript_received, VivaOrchestrator.turnBody,
            VivaOrchestrator.save_message_to_db,
            VivaOrchestrator.stream_ai_audio_to_client, hv, hc]

/-- The ASR callback leaves the lock cleared whenever a session is loaded. -/
theorem otr_lock_clears (st : VivaOrchestrator) (vs : VivaSession) (t : String)
    (u : Bool) (l : Except Err LLMEvaluation) (a : Bool)
    (tts : List (Except Err TTSMsg)) (hvs : st.viva_session = some vs) :
    (st.on_transcript_received t u l a tts).1.is_processing_llm = false := by
  rcases h : VivaOrchestrator.turnBody ({ st with is_processing_llm := true }) t u l a tts
    with ⟨stEnd, r, body⟩
  simp [VivaOrchestrator.on_transcript_received, hvs, h]

/-- The ASR callback never leaves the lock set. -/
theorem otr_lock_false (st : VivaOrchestrator) (t : String) (u : Bool)
    (l : Except Err LLMEvaluation) (a : Bool) (tts : List (Except Err TTSMsg))
    (h : st.is_processing_llm = false) :
    (st.on_transcript_received t u l a tts).1.is_processing_llm = false := by
  rcases hv : st.viva_session with _ | vs
  · rw [otr_none st t u l a tts hv]
    exact h
  · exact otr_lock_clears st vs t u l a tts hv

/-- A successfully returning `handle_audio_chunk` only ever touches the ASR
service state. -/
theorem handle_frame (st : VivaOrchestrator) (c : AudioChunk) (ok : Bool)
    (p : VivaOrchestrator × List Event) (hp : st.handle_audio_chunk c ok = .ok p) :
    p.1.session_collection = st.session_collection
    ∧ p.1.is_processing_llm = st.is_processing_llm
    ∧ p.1.viva_session = st.viva_session
    ∧ p.1.store = st.store := by
  rcases handle_audio_chunk_spec st c ok with hcase | ⟨_, hcase⟩ <;>
  · rw [hp] at hcase
    injection hcase with hcase
    rw [hcase]
    exact ⟨rfl, rfl, rfl, rfl⟩

/-- The receive loop never touches the database handle. -/
theorem run_loop_sc (inb : List Inbound) (st : VivaOrchestrator) :
    (run_loop st inb).session_collection = st.session_collection := by
  induction inb generalizing st with
  | nil => rfl
  | cons i rest ih =>
    cases i with
    | audioBytes c ok =>
      rcases hp : st.handle_audio_chunk c ok with e | p
      · rcases handle_audio_chunk_spec st c ok with hcase | ⟨_, hcase⟩ <;>
          rw [hp] at hcase <;> exact absurd hcase (by simp)
      · have hf := handle_frame st c ok p hp
        simp only [run_loop, hp]
        rw [ih p.1, hf.1]
    | textMessage s =>
      simp only [run_loop]
      exact ih st
    | finalTranscript t u l a tts =>
      simp only [run_loop]
      rw [ih _, (otr_frame st t u l a tts).1]

/-- The receive loop never sets the lock: at every loop boundary the lock is
clear. -/
theorem run_loop_lock_false (inb : List Inbound) (st : VivaOrchestrator)
    (h : st.is_processing_llm = false) :
    (run_loop st inb).is_processing_llm = false := by
  induction inb generalizing st with
  | nil => exact h
  | cons i rest ih =>
    cases i with
    | audioBytes c ok =>
      rcases hp : st.handle_audio_chunk c ok with e | p
      · rcases handle_audio_chunk_spec st c ok with hcase | ⟨_, hcase⟩ <;>
          rw [hp] at hcase <;> exact absurd hcase (by simp)
      · have hf := handle_frame st c ok p hp
        simp only [run_loop, hp]
        exact ih p.1 (hf.2.1.trans h)
    | textMessage s =>
      simp only [run_loop]
      exact ih st h
    | finalTranscript t u l a tts =>
      simp only [run_loop]
      exact ih _ (otr_lock_false st t u l a tts h)

/-- `start_viva` never touches the database handle. -/
theorem sv_sc (st : VivaOrchestrator) (raw : Except Err LLMEvaluation)
    (dOk : Bool) (tts : List (Except Err TTSMsg)) :
    (st.start_viva raw dOk tts).1.session_collection = st.session_collection := by
  rcases hv : st.viva_session with _ | vs
  · simp [VivaOrchestrator.start_viva, hv]
  · by_cases hlen : 0 < vs.transcript.length
    · simp [VivaOrchestrator.start_viva, hv, hlen]
    · cases hc : st.session_collection <;> rcases raw with e | r <;> cases dOk <;>
        simp [VivaOrchestrator.start_viva, get_ai_first_question,
              VivaOrchestrator.save_message_to_db,
              VivaOrchestrator.stream_ai_audio_to_client, hv, hc, hlen]

/-- What `disconnect` guarantees once the database handle is set. -/
theorem disconnect_spec (st : VivaOrchestrator) (h : st.session_collection = true) :
    st.disconnect.store.status = "completed"
    ∧ st.disconnect.asr_service.is_connected = false
    ∧ st.disconnect.asr_service.ws = false
    ∧ st.disconnect.asr_service.listener_running = false := by
  simp [VivaOrchestrator.disconnect, SarvamASRService.close, h]

/-- An audio-frame segment of a trace contains no lock transitions. -/
theorem audio_map_no_lock (frames : List AudioChunk) :
    (frames.map Event.sentAudio).all (fun e => !isLockEvent e) = true := by
  induction frames with
  | nil => rfl
  | cons c rest ih => simp [isLockEvent, ih]

/-- The turn body emits no lock transitions of its own: the lock set at
entry stays set until the `finally` clears it. -/
theorem turnBody_no_lock_events (st : VivaOrchestrator) (t : String) (u : Bool)
    (l : Except Err LLMEvaluation) (a : Bool) (tts : List (Except Err TTSMsg)) :
    ((VivaOrchestrator.turnBody st t u l a tts).2.2).all (fun e => !isLockEvent e) = true := by
  rcases hv : st.viva_session with _ | vs
  · simp [VivaOrchestrator.turnBody, VivaOrchestrator.save_message_to_db, hv]
  · cases hc : st.session_collection <;> cases u <;> rcases l with e | resp <;> cases a <;>
      simp [VivaOrchestrator.turnBody, VivaOrchestrator.save_message_to_db,
            VivaOrchestrator.stream_ai_audio_to_client, hv, hc, isLockEvent,
            List.all_append, audio_map_no_lock]

/-- The student message built by the viva loop satisfies the
evaluation-field discipline. -/
theorem evalFieldOk_user (t : String) : evalFieldOk (userMessage t) = true := by
  simp [evalFieldOk, userMessage]

/-- Any examiner message carrying a structured evaluation satisfies the
evaluation-field discipline. -/
theorem evalFieldOk_ai (tx : String) (resp : LLMEvaluation) :
    evalFieldOk ⟨"ai", tx, some resp⟩ = true := by
  simp [evalFieldOk]

/-- `initialize` never writes to the store. -/
theorem init_store (st : VivaOrchestrator) (dbOk asrOk : Bool) :
    (st.init_and_load dbOk asrOk).2.store = st.store := by
  cases dbOk <;> cases hf : st.store.found <;> cases asrOk <;>
    simp [VivaOrchestrator.init_and_load, Store.loadSession, hf]

/-- `disconnect` only updates the session status, never the transcript. -/
theorem disconnect_transcript (st : VivaOrchestrator) :
    st.disconnect.store.transcript = st.store.transcript := by
  cases hc : st.session_collection <;>
    simp [VivaOrchestrator.disconnect, SarvamASRService.close, hc]

/-- The ASR callback preserves the evaluation-field discipline of the
persisted transcript: it only ever pushes a student message without an
evaluation or an examiner message with one. -/
theorem otr_eval_inv (st : VivaOrchestrator) (t : String) (u : Bool)
    (l : Except Err LLMEvaluation) (a : Bool) (tts : List (Except Err TTSMsg))
    (h : st.store.transcript.all evalFieldOk = true) :
    ((st.on_transcript_received t u l a tts).1.store.transcript.all evalFieldOk) = true := by
  rcases hv : st.viva_session with _ | vs
  · rw [otr_none st t u l a tts hv]
    exact h
  · cases hc : st.session_collection <;> cases u <;> rcases l with e | resp <;> cases a <;>
      simp [VivaOrchestrator.on_transcript_received, VivaOrchestrator.turnBody,
            VivaOrchestrator.save_message_to_db,
            VivaOrchestrator.stream_ai_audio_to_client, hv, hc,
            List.all_append, h, evalFieldOk, userMessage]

/-- `start_viva` preserves the evaluation-field discipline of the persisted
transcript: the only message it pushes is an examiner message carrying the
(placeholder) evaluation. -/
theorem sv_eval_inv (st : VivaOrchestrator) (raw : Except Err LLMEvaluation)
    (dOk : Bool) (tts : List (Except Err TTSMsg))
    (h : st.store.transcript.all evalFieldOk = true) :
    ((st.start_viva raw dOk tts).1.store.transcript.all evalFieldOk) = true := by
  rcases hv : st.viva_session with _ | vs
  · simp [VivaOrchestrator.start_viva, hv, h]
  · by_cases hlen : 0 < vs.transcript.length
    · simp [VivaOrchestrator.start_viva, hv, hlen, h]
    · cases hc : st.session_collection <;> rcases raw with e | r <;> cases dOk <;>
        simp [VivaOrchestrator.start_viva, get_ai_first_question,
              VivaOrchestrator.save_message_to_db,
              VivaOrchestrator.stream_ai_audio_to_client, hv, hc, hlen,
              List.all_append, h, evalFieldOk]

/-- The receive loop preserves the evaluation-field discipline of the
persisted transcript. -/
theorem run_loop_eval_inv (inb : List Inbound) (st : VivaOrchestrator)
    (h : st.store.transcript.all evalFieldOk = true) :
    ((run_loop st inb).store.transcript.all evalFieldOk) = true := by
  induction inb generalizing st with
  | nil => exact h
  | cons i rest ih =>
    cases i with
    | audioBytes c ok =>
      rcases hp : st.handle_audio_chunk c ok with e | p
      · rcases handle_audio_chunk_spec st c ok with hcase | ⟨_, hcase⟩ <;>
          rw [hp] at hcase <;> exact absurd hcase (by simp)
      · have hf := handle_frame st c ok p hp
        simp only [run_loop, hp]
        exact ih p.1 (by rw [hf.2.2.2]; exact h)
    | textMessage s =>
      simp only [run_loop]
      exact ih st h
    | finalTranscript t u l a tts =>
      simp only [run_loop]
      exact ih _ (otr_eval_inv st t u l a tts h)

/-! ## Claim theorems -/

/-- C1: the turn lock is set at the start of the transcript-driven
generate→persist→synthesize cycle and stays set until the guaranteed
`finally` clears it (the cycle's trace is `lockSet`, a lock-transition-free
body, then `lockCleared`, and the state afterwards has the lock clear);
a frame received while the lock is held is dropped — state unchanged, not
forwarded, not queued; a frame reaches the recognizer only when the lock is
clear; and the lock is clear at every point outside a cycle (the receive
loop, started with the lock clear, keeps it clear at every boundary). -/
theorem C1_turn_lock (st : VivaOrchestrator) (t : String) (u : Bool)
    (l : Except Err LLMEvaluation) (a : Bool) (tts : List (Except Err TTSMsg))
    (vs : VivaSession) (hvs : st.viva_session = some vs) :
    (∃ mid, (st.on_transcript_received t u l a tts).2
        = Event.lockSet :: mid ++ [Event.lockCleared]
      ∧ mid.all (fun e => !isLockEvent e) = true)
    ∧ (st.on_transcript_received t u l a tts).1.is_processing_llm = false
    ∧ (∀ st2 : VivaOrchestrator, ∀ c ok, st2.is_processing_llm = true →
        st2.handle_audio_chunk c ok = .ok (st2, []))
    ∧ (∀ st2 : VivaOrchestrator, ∀ c ok p, st2.handle_audio_chunk c ok = .ok p →
        p.1.asr_service.sent ≠ st2.asr_service.sent → st2.is_processing_llm = false)
    ∧ (∀ inb, ∀ st2 : VivaOrchestrator, st2.is_processing_llm = false →
        (run_loop st2 inb).is_processing_llm = false) := by
  refine ⟨?_, otr_lock_clears st vs t u l a tts hvs, ?_, ?_, ?_⟩
  · rcases h : VivaOrchestrator.turnBody
        ({ st with is_processing_llm := true, viva_session := some vs }) t u l a tts
      with ⟨stEnd, r, body⟩
    refine ⟨body, ?_, ?_⟩
    · simp [VivaOrchestrator.on_transcript_received, hvs, h]
    · have := turnBody_no_lock_events
        ({ st with is_processing_llm := true, viva_session := some vs }) t u l a tts
      rw [h] at this
      exact this
  · intro st2 c ok h2
    exact handle_audio_chunk_locked st2 c ok h2
  · intro st2 c ok p hp hne
    rcases handle_audio_chunk_spec st2 c ok with hcase | ⟨hlock, _⟩
    · rw [hp] at hcase
      injection hcase with hcase
      rw [hcase] at hne
      exact absurd rfl hne
    · exact hlock
  · intro inb st2 h2
    exact run_loop_lock_false inb st2 h2

/-- C1 witness: the C1 theorem instantiated on the sample orchestrator with
a concrete successful turn. -/
theorem C1_turn_lock_witness :
    sampleOrch.viva_session = some sampleSession
    ∧ (sampleOrch.on_transcript_received "x" true
        (.ok ⟨"good", "next"⟩) true []).1.is_processing_llm = false :=
  ⟨rfl, (C1_turn_lock sampleOrch "x" true (.ok ⟨"good", "next"⟩) true []
      sampleSession rfl).2.1⟩

/-- C2: within every turn, persistence precedes the next pipeline stage —
in every trace of the ASR callback, every invocation of the dialogue
generator is strictly preceded by a durable append of a student ("user")
message, and every audio-out event (frame or end-of-speech marker) is
strictly preceded by a durable append of an examiner ("ai") message; the
same persist-then-speak ordering holds for the opening turn produced by
`start_viva`. -/
theorem C2_persist_before_next_stage (st : VivaOrchestrator) (t : String)
    (u : Bool) (l : Except Err LLMEvaluation) (a : Bool)
    (tts : List (Except Err TTSMsg)) (raw : Except Err LLMEvaluation)
    (dOk : Bool) (tts2 : List (Except Err TTSMsg)) :
    precededBy (isDbAppendBy "user") isGenInvocation false
        (st.on_transcript_received t u l a tts).2 = true
    ∧ precededBy (isDbAppendBy "ai") isAudioOut false
        (st.on_transcript_received t u l a tts).2 = true
    ∧ precededBy (isDbAppendBy "ai") isAudioOut false
        (st.start_viva raw dOk tts2).2.2 = true := by
  refine ⟨?_, ?_, ?_⟩
  · rcases hv : st.viva_session with _ | vs
    · simp [otr_none st t u l a tts hv, precededBy]
    · cases hc : st.session_collection <;> cases u <;> rcases l with e | resp <;> cases a <;>
        simp [VivaOrchestrator.on_transcript_received, VivaOrchestrator.turnBody,
              VivaOrchestrator.save_message_to_db,
              VivaOrchestrator.stream_ai_audio_to_client, hv, hc,
              precededBy, isDbAppendBy, isGenInvocation, precededBy_of_seen]
  · rcases hv : st.viva_session with _ | vs
    · simp [otr_none st t u l a tts hv, precededBy]
    · cases hc : st.session_collection <;> cases u <;> rcases l with e | resp <;> cases a <;>
        simp [VivaOrchestrator.on_transcript_received, VivaOrchestrator.turnBody,
              VivaOrchestrator.save_message_to_db,
              VivaOrchestrator.stream_ai_audio_to_client, hv, hc,
              precededBy, isDbAppendBy, isAudioOut, precededBy_of_seen]
  · rcases hv : st.viva_session with _ | vs
    · simp [sv_none st raw dOk tts2 hv, precededBy]
    · by_cases hlen : 0 < vs.transcript.length
      · simp [VivaOrchestrator.start_viva, hv, hlen, precededBy]
      · cases hc : st.session_collection <;> rcases raw with e | r <;> cases dOk <;>
          simp [VivaOrchestrator.start_viva, get_ai_first_question,
                VivaOrchestrator.save_message_to_db,
                VivaOrchestrator.stream_ai_audio_to_client, hv, hc, hlen,
                precededBy, isDbAppendBy, isAudioOut, precededBy_of_seen]

/-- C3: when the dialogue generator raises mid-turn, the student's
just-submitted answer has been appended exactly once to both the in-memory
and the persisted transcript, the lock is released by the `finally`, the
session is not torn down (recognizer state, database handle, session status
all untouched), and the trace shows a single generator invocation with no
retry and no synthesis. -/
theorem C3_generator_failure (st : VivaOrchestrator) (vs : VivaSession)
    (t : String) (e : Err) (a : Bool) (tts : List (Except Err TTSMsg))
    (hvs : st.viva_session = some vs) (hc : st.session_collection = true) :
    st.on_transcript_received t true (.error e) a tts
      = ({ st with
            is_processing_llm := false,
            viva_session := some ({ vs with transcript := vs.transcript ++ [userMessage t] }),
            store := { st.store with transcript := st.store.transcript ++ [userMessage t] } },
         [Event.lockSet, Event.memAppended "user" t, Event.dbAppended "user" t,
          Event.invokedGenerator (vs.transcript ++ [userMessage t]) t,
          Event.lockCleared]) :=
  otr_genFail st vs t e a tts hvs hc

/-- C3 witness: the generator-failure path run on the sample orchestrator. -/
theorem C3_generator_failure_witness :
    sampleOrch.viva_session = some sampleSession
    ∧ sampleOrch.session_collection = true
    ∧ sampleOrch.on_transcript_received "ans" true (.error .llmFailed) true []
      = ({ sampleOrch with
            is_processing_llm := false,
            viva_session := some ({ sampleSession with transcript := [userMessage "ans"] }),
            store := { sampleOrch.store with transcript := [userMessage "ans"] } },
         [Event.lockSet, Event.memAppended "user" "ans", Event.dbAppended "user" "ans",
          Event.invokedGenerator [userMessage "ans"] "ans",
          Event.lockCleared]) :=
  ⟨rfl, rfl, C3_generator_failure sampleOrch sampleSession "ans" .llmFailed true [] rfl rfl⟩

/-- C4 counterexample: after a turn in which the store write for the
student's answer "a1" raised (the answer stays in the in-memory transcript
only), a later successful turn passes the dialogue generator a history
containing "a1" — a message that was never durably recorded: the final
persisted transcript does not contain it.  This refutes "the history passed
to the dialogue generator always reflects exactly the turns already durably
recorded in the store". -/
theorem C4_history_counterexample :
    Event.invokedGenerator [userMessage "a1", userMessage "a2"] "a2" ∈ secondTurn.2
    ∧ userMessage "a1" ∉ secondTurn.1.store.transcript
    ∧ secondTurn.1.store.transcript
        = [userMessage "a2", ⟨"ai", "e2 q2", some ⟨"e2", "q2"⟩⟩] := by
  decide

/-- C4 amended: a `persist` call whose store write succeeds appends the
same message at the tail of the in-memory and the persisted transcript (so
for successful calls both are appended in call order), and a call whose
store write raises fails loudly before the caller proceeds — but it has
already extended the in-memory transcript.  Consequently the guarantee
about generator history holds only while every store write has succeeded:
if the in-memory and persisted transcripts agree when the turn starts and
the student save succeeds, the history handed to the generator equals the
persisted transcript at the moment of invocation, and a fully successful
turn preserves the agreement. -/
theorem C4_persist_order_amended (st : VivaOrchestrator) (vs : VivaSession)
    (t : String) (resp : LLMEvaluation) (a : Bool) (tts : List (Except Err TTSMsg))
    (hvs : st.viva_session = some vs) (hc : st.session_collection = true)
    (hsync : vs.transcript = st.store.transcript) :
    (∀ sp tx ev,
      (st.save_message_to_db sp tx ev true).1.viva_session
          = some ({ vs with transcript := vs.transcript ++ [(⟨sp, tx, ev⟩ : Message)] })
      ∧ (st.save_message_to_db sp tx ev true).1.store.transcript
          = st.store.transcript ++ [(⟨sp, tx, ev⟩ : Message)])
    ∧ (∀ h ans, Event.invokedGenerator h ans
          ∈ (st.on_transcript_received t true (.ok resp) a tts).2 →
        h = st.store.transcript ++ [userMessage t])
    ∧ ((st.on_transcript_received t true (.ok resp) true tts).1.viva_session.map
          VivaSession.transcript
        = some (st.on_transcript_received t true (.ok resp) true tts).1.store.transcript) := by
  refine ⟨?_, ?_, ?_⟩
  · intro sp tx ev
    rw [save_ok_spec st vs sp tx ev hvs hc]
    exact ⟨rfl, rfl⟩
  · intro h ans hmem
    cases a with
    | false =>
      rw [otr_aiFail st vs t resp tts hvs hc] at hmem
      simp only [List.mem_cons, List.mem_singleton] at hmem
      rcases hmem with h1 | h1 | h1 | h1 | h1 | h1 <;> first
        | (injection h1 with h2 h3; rw [h2, hsync])
        | exact absurd h1 (by simp)
    | true =>
      rw [otr_success st vs t resp tts hvs hc] at hmem
      simp only [List.mem_cons, List.mem_append, List.mem_map, List.mem_singleton] at hmem
      rcases hmem with h1 | h1 | h1 | h1 | h1 | h1 | h1 <;> first
        | (injection h1 with h2 h3; rw [h2, hsync])
        | exact absurd h1 (by simp)
  · rw [otr_success st vs t resp tts hvs hc]
    simp [hsync]

/-- C4 amended witness: the amended guarantee instantiated on the sample
orchestrator with a concrete successful turn. -/
theorem C4_persist_order_amended_witness :
    sampleOrch.viva_session = some sampleSession
    ∧ sampleOrch.session_collection = true
    ∧ sampleSession.transcript = sampleOrch.store.transcript
    ∧ ((sampleOrch.on_transcript_received "x" true (.ok ⟨"e", "q"⟩) true []).1.viva_session.map
          VivaSession.transcript
        = some (sampleOrch.on_transcript_received "x" true (.ok ⟨"e", "q"⟩) true []).1.store.transcript) :=
  ⟨rfl, rfl, rfl,
    (C4_persist_order_amended sampleOrch sampleSession "x" ⟨"e", "q"⟩ true []
      rfl rfl rfl).2.2⟩

/-- A successful `initialize` has set the database handle. -/
theorem init_success_sc (st : VivaOrchestrator) (dbOk asrOk : Bool)
    (h : (st.init_and_load dbOk asrOk).1 = true) :
    (st.init_and_load dbOk asrOk).2.session_collection = true := by
  cases dbOk <;> cases hf : st.store.found <;> cases asrOk <;>
    simp_all [VivaOrchestrator.init_and_load, Store.loadSession, hf]

/-- C5: whenever the websocket connection ends after a successful
`initialize` — whatever the inbound traffic was, and whether the endpoint's
body ended in a normal client disconnect (inbound list exhausted), an
exception escaping `start_viva`, or any other error — the `finally` teardown
runs `disconnect`: the recognizer connection is closed (listener task
cancelled, websocket gone, connected flag cleared) and the session status is
marked completed in the store. -/
theorem C5_teardown (store0 : Store) (dbOk asrOk : Bool)
    (raw : Except Err LLMEvaluation) (fdb : Bool)
    (ftts : List (Except Err TTSMsg)) (inbounds : List Inbound)
    (hinit : (VivaOrchestrator.init_and_load (VivaOrchestrator.construct store0)
        dbOk asrOk).1 = true) :
    (websocket_viva_endpoint store0 dbOk asrOk raw fdb ftts inbounds).store.status
        = "completed"
    ∧ (websocket_viva_endpoint store0 dbOk asrOk raw fdb ftts inbounds).asr_service.is_connected
        = false
    ∧ (websocket_viva_endpoint store0 dbOk asrOk raw fdb ftts inbounds).asr_service.ws
        = false
    ∧ (websocket_viva_endpoint store0 dbOk asrOk raw fdb ftts inbounds).asr_service.listener_running
        = false := by
  have hsc := init_success_sc (VivaOrchestrator.construct store0) dbOk asrOk hinit
  rcases hi : VivaOrchestrator.init_and_load (VivaOrchestrator.construct store0) dbOk asrOk
    with ⟨ok, st1⟩
  rw [hi] at hinit hsc
  subst hinit
  rcases hs : st1.start_viva raw fdb ftts with ⟨st2, r, tr⟩
  have hsc2 : st2.session_collection = true := by
    have := sv_sc st1 raw fdb ftts
    rw [hs] at this
    exact this.trans hsc
  cases r with
  | error e =>
    simp only [websocket_viva_endpoint, hi, hs]
    exact disconnect_spec st2 hsc2
  | ok u =>
    simp only [websocket_viva_endpoint, hi, hs]
    exact disconnect_spec (run_loop st2 inbounds) ((run_loop_sc inbounds st2).trans hsc2)

/-- C5 witness: a full endpoint run on the sample store. -/
theorem C5_teardown_witness :
    (VivaOrchestrator.init_and_load (VivaOrchestrator.construct sampleStore) true true).1 = true
    ∧ (websocket_viva_endpoint sampleStore true true (.ok ⟨"r", "q"⟩) true [] []).store.status
        = "completed" :=
  ⟨rfl, (C5_teardown sampleStore true true (.ok ⟨"r", "q"⟩) true [] [] rfl).1⟩

/-- C6: reconnecting a session whose loaded transcript is non-empty makes
`start_viva` return immediately — no generation, no persistence, no audio,
state untouched — and the opening question is invoked if and only if the
loaded transcript is empty. -/
theorem C6_resume_no_reissue (st : VivaOrchestrator) (vs : VivaSession)
    (raw : Except Err LLMEvaluation) (dOk : Bool) (tts : List (Except Err TTSMsg))
    (hvs : st.viva_session = some vs) :
    (vs.transcript ≠ [] → st.start_viva raw dOk tts = (st, .ok (), []))
    ∧ ((∃ tc cl, Event.invokedFirstQuestion tc cl ∈ (st.start_viva raw dOk tts).2.2)
        ↔ vs.transcript = []) := by
  constructor
  · intro hne
    exact sv_resume st vs raw dOk tts hvs hne
  · constructor
    · rintro ⟨tc, cl, hmem⟩
      by_contra hne
      rw [sv_resume st vs raw dOk tts hvs hne] at hmem
      simp at hmem
    · intro hemp
      refine ⟨vs.topic, vs.class_level, ?_⟩
      rcases raw with e | r
      · rw [sv_llmFail st vs e dOk tts hvs hemp]
        simp
      · cases hc : st.session_collection
        · rw [sv_noDb st vs r dOk tts hvs hemp hc]
          simp
        · cases dOk
          · rw [sv_saveFail st vs r tts hvs hemp hc]
            simp
          · rw [sv_success st vs r tts hvs hemp hc]
            simp

/-- C6 witness: a resumed session (one prior message) re-issues nothing. -/
theorem C6_resume_no_reissue_witness :
    ({ sampleOrch with viva_session := some ({ sampleSession with transcript := [userMessage "hi"] }) } : VivaOrchestrator).viva_session
        = some ({ sampleSession with transcript := [userMessage "hi"] })
    ∧ ({ sampleOrch with viva_session := some ({ sampleSession with transcript := [userMessage "hi"] }) } : VivaOrchestrator).start_viva (.ok ⟨"r", "q"⟩) true []
        = ({ sampleOrch with viva_session := some ({ sampleSession with transcript := [userMessage "hi"] }) }, .ok (), []) := by
  refine ⟨rfl, ?_⟩
  exact (C6_resume_no_reissue _ _ (.ok ⟨"r", "q"⟩) true [] rfl).1 (by decide)

/-- C7 counterexample: on a fresh session the code persists the opening
examiner message WITH the structured evaluation attached (its evaluation
text being the fixed placeholder), so the evaluation field is not absent on
the opening-question examiner message. -/
theorem C7_evaluation_counterexample :
    (sampleOrch.start_viva (.ok ⟨"raw", "Q1"⟩) true []).1.store.transcript
      = [⟨"ai", "Q1", some ⟨openingPlaceholder, "Q1"⟩⟩]
    ∧ (⟨"ai", "Q1", some ⟨openingPlaceholder, "Q1"⟩⟩ : Message).ai_evaluation ≠ none := by
  decide

/-- C7 amended: in every persisted transcript produced by an endpoint run
from a store satisfying the discipline, the structured evaluation field is
absent on every student message and present on every examiner message the
orchestrator persists — including the opening-question message, which
carries the fixed placeholder as its evaluation text. -/
theorem C7_evaluation_field_amended (store0 : Store) (dbOk asrOk : Bool)
    (raw : Except Err LLMEvaluation) (fdb : Bool)
    (ftts : List (Except Err TTSMsg)) (inbounds : List Inbound)
    (h : store0.transcript.all evalFieldOk = true) :
    ((websocket_viva_endpoint store0 dbOk asrOk raw fdb ftts inbounds).store.transcript.all
        evalFieldOk) = true := by
  rcases hi : VivaOrchestrator.init_and_load (VivaOrchestrator.construct store0) dbOk asrOk
    with ⟨ok, st1⟩
  have hst1 : st1.store = store0 := by
    have := init_store (VivaOrchestrator.construct store0) dbOk asrOk
    rw [hi] at this
    exact this
  have h1 : st1.store.transcript.all evalFieldOk = true := by
    rw [hst1]
    exact h
  cases ok with
  | false =>
    simp only [websocket_viva_endpoint, hi]
    exact h1
  | true =>
    rcases hs : st1.start_viva raw fdb ftts with ⟨st2, r, tr⟩
    have h2 : st2.store.transcript.all evalFieldOk = true := by
      have := sv_eval_inv st1 raw fdb ftts h1
      rw [hs] at this
      exact this
    cases r with
    | error e =>
      simp only [websocket_viva_endpoint, hi, hs]
      rw [disconnect_transcript]
      exact h2
    | ok u =>
      simp only [websocket_viva_endpoint, hi, hs]
      rw [disconnect_transcript]
      exact run_loop_eval_inv inbounds st2 h2

/-- C7 amended witness: an endpoint run with one full turn on the sample
store. -/
theorem C7_evaluation_field_amended_witness :
    sampleStore.transcript.all evalFieldOk = true
    ∧ ((websocket_viva_endpoint sampleStore true true (.ok ⟨"r", "q"⟩) true []
        [Inbound.finalTranscript "ans" true (.ok ⟨"e2", "q2"⟩) true []]).store.transcript.all
          evalFieldOk) = true :=
  ⟨rfl, C7_evaluation_field_amended sampleStore true true (.ok ⟨"r", "q"⟩) true []
    [Inbound.finalTranscript "ans" true (.ok ⟨"e2", "q2"⟩) true []] rfl⟩

/-- C8: on a new session (empty transcript), given the dialogue generator's
contract that the question text is non-empty, `start_viva` persists exactly
one examiner message — its evaluation text is the fixed opening placeholder
regardless of what the LLM returned in that field, its text is the
non-empty question — and the trace shows the durable append strictly before
every audio frame and the end-of-speech marker. -/
theorem C8_opening_message (st : VivaOrchestrator) (vs : VivaSession)
    (e0 q : String) (tts : List (Except Err TTSMsg))
    (hvs : st.viva_session = some vs) (hc : st.session_collection = true)
    (hemp : vs.transcript = []) (hq : q ≠ "") :
    (st.start_viva (.ok ⟨e0, q⟩) true tts).1.store.transcript
        = st.store.transcript ++ [⟨"ai", q, some ⟨openingPlaceholder, q⟩⟩]
    ∧ (st.start_viva (.ok ⟨e0, q⟩) true tts).2.2
        = Event.invokedFirstQuestion vs.topic vs.class_level ::
           Event.memAppended "ai" q :: Event.dbAppended "ai" q ::
           ((text_to_audio_stream q tts).map Event.sentAudio ++ [Event.sentSpeechEnd])
    ∧ (⟨"ai", q, some ⟨openingPlaceholder, q⟩⟩ : Message).text ≠ "" := by
  have hs := sv_success st vs ⟨e0, q⟩ tts hvs hemp hc
  refine ⟨?_, ?_, hq⟩
  · rw [hs]
  · rw [hs]

/-- C8 witness: the spec's scenario — new session on "Photosynthesis" for
"10th Grade". -/
theorem C8_opening_message_witness :
    sampleOrch.viva_session = some sampleSession
    ∧ sampleOrch.session_collection = true
    ∧ sampleSession.transcript = []
    ∧ ("What is photosynthesis?" : String) ≠ ""
    ∧ (sampleOrch.start_viva (.ok ⟨"raw", "What is photosynthesis?"⟩) true []).1.store.transcript
        = sampleOrch.store.transcript
          ++ [⟨"ai", "What is photosynthesis?",
              some ⟨openingPlaceholder, "What is photosynthesis?"⟩⟩] :=
  ⟨rfl, rfl, rfl, by decide,
    (C8_opening_message sampleOrch sampleSession "raw" "What is photosynthesis?" []
      rfl rfl rfl (by decide)).1⟩

/-- C9: streaming an examiner message forwards exactly the frames the TTS
generator yields, in order, followed by exactly one end-of-speech marker;
the orchestrator state is untouched; and when iterating the TTS websocket
raises mid-stream, the output is independent of anything that would have
followed the raise — the marker is still the last thing sent. -/
theorem C9_stream_marker (st : VivaOrchestrator) (msg : Message)
    (tts : List (Except Err TTSMsg)) :
    (st.stream_ai_audio_to_client msg tts).2
        = (text_to_audio_stream msg.text tts).map Event.sentAudio ++ [Event.sentSpeechEnd]
    ∧ countSpeechEnd (st.stream_ai_audio_to_client msg tts).2 = 1
    ∧ (st.stream_ai_audio_to_client msg tts).1 = st
    ∧ (∀ pre e suf suf', tts = pre ++ Except.error e :: suf →
        (st.stream_ai_audio_to_client msg (pre ++ Except.error e :: suf')).2
          = (st.stream_ai_audio_to_client msg tts).2) := by
  refine ⟨rfl, countSpeechEnd_stream _, rfl, ?_⟩
  intro pre e suf suf' htts
  subst htts
  simp only [VivaOrchestrator.stream_ai_audio_to_client]
  rw [text_to_audio_stream_error_stops msg.text pre e suf' suf]

/-- C9 witness: a stream whose websocket raises after the first frame still
ends with the single marker, and its output ignores the post-raise tail. -/
theorem C9_stream_marker_witness :
    ([Except.ok (TTSMsg.audio [1]), Except.error Err.ttsFailed]
        : List (Except Err TTSMsg))
      = [Except.ok (TTSMsg.audio [1])] ++ Except.error Err.ttsFailed :: []
    ∧ (sampleOrch.stream_ai_audio_to_client (userMessage "m")
        ([Except.ok (TTSMsg.audio [1])] ++ Except.error Err.ttsFailed :: [Except.ok (TTSMsg.audio [2])])).2
      = (sampleOrch.stream_ai_audio_to_client (userMessage "m")
        [Except.ok (TTSMsg.audio [1]), Except.error Err.ttsFailed]).2 :=
  ⟨rfl, (C9_stream_marker sampleOrch (userMessage "m")
      [Except.ok (TTSMsg.audio [1]), Except.error Err.ttsFailed]).2.2.2
    [Except.ok (TTSMsg.audio [1])] Err.ttsFailed [] [Except.ok (TTSMsg.audio [2])] rfl⟩

/-- C10: `handle_audio_chunk` never raises to the transport loop: for every
state and frame it returns normally, either silently dropping the frame
(state untouched — in particular when the recognizer is not connected or
when the SDK send raises, which `send_audio_chunk` catches and swallows) or
forwarding it to the recognizer. -/
theorem C10_ingress_never_raises (st : VivaOrchestrator) (c : AudioChunk) (ok : Bool) :
    (st.handle_audio_chunk c ok = .ok (st, [])
     ∨ st.handle_audio_chunk c ok
       = .ok ({ st with asr_service :=
           { st.asr_service with sent := st.asr_service.sent ++ [c] } },
         [Event.forwardedToASR c]))
    ∧ (st.asr_service.is_connected = false → st.handle_audio_chunk c ok = .ok (st, []))
    ∧ (ok = false → st.handle_audio_chunk c ok = .ok (st, [])) := by
  refine ⟨?_, ?_, ?_⟩
  · rcases handle_audio_chunk_spec st c ok with h | ⟨_, h⟩
    · exact Or.inl h
    · exact Or.inr h
  · intro h2
    obtain ⟨lock, vs, sc, asr, store⟩ := st
    obtain ⟨conn, ws, lr, sent⟩ := asr
    simp only at h2
    subst h2
    cases lock <;>
      simp [VivaOrchestrator.handle_audio_chunk, SarvamASRService.send_audio_chunk]
  · intro h4
    subst h4
    obtain ⟨lock, vs, sc, asr, store⟩ := st
    obtain ⟨conn, ws, lr, sent⟩ := asr
    cases lock <;> cases conn <;> cases ws <;>
      simp [VivaOrchestrator.handle_audio_chunk, SarvamASRService.send_audio_chunk,
            SarvamASRService.transcribe]

/-- C10 witness: a frame received while the recognizer is not connected is
silently dropped with no error. -/
theorem C10_ingress_never_raises_witness :
    (VivaOrchestrator.construct sampleStore).asr_service.is_connected = false
    ∧ (VivaOrchestrator.construct sampleStore).handle_audio_chunk [7] true
        = .ok (VivaOrchestrator.construct sampleStore, []) :=
  ⟨rfl, (C10_ingress_never_raises (VivaOrchestrator.construct sampleStore) [7] true).2.1 rfl⟩
